import Mathlib

/-!
A shallow embedding of the task-orchestration core of the OpenDroneMap-P-D
backend (files `backend/odm_processor.py`, `backend/utils.py`,
`backend/app.py`, `backend/models.py`) and proofs about it.

Conventions of the embedding:
* Python dicts with a fixed key set become Lean structures.
* Timestamps are modelled as natural numbers (seconds); the code only ever
  stores `datetime.utcnow()` and subtracts two timestamps.
* Database reads/writes become explicit record passing; a possibly-absent
  row is an `Option ProjectRecord`.
* The float values appearing in ODM option tables (10, 5, 2, 1, 5.0) are
  all exactly representable integers, so they are modelled as `Int`.
* One poll iteration of the monitoring loop (`_monitor_task` body) becomes
  the pure step function `monStep`; the environment visible to one poll
  (remote status string, progress percentage, log output, error text, the
  result-bundle contents that a download would find, and the wall-clock
  time) is a `TaskInfo` record.
-/

namespace ODM

/-- `models.ProcessingStatus` enum from `backend/models.py`. -/
inductive ProcessingStatus where
  | pending
  | uploading
  | processing
  | completed
  | failed
  | cancelled
deriving DecidableEq, Repr

/-- The fields of `models.Project` that the orchestration core reads or
writes (`backend/models.py`, class `Project`).  `created_at` is non-null
(column default `datetime.utcnow`). -/
structure ProjectRecord where
  status : ProcessingStatus
  progress : Nat
  quality : String
  createdAt : Nat
  updatedAt : Nat
  completedAt : Option Nat
  processingTime : Option Int
  orthophotoPath : Option String
  demPath : Option String
  pointcloudPath : Option String
  texturedModelPath : Option String
  errorMessage : Option String
  consoleOutput : List String
deriving DecidableEq, Repr

/-- The ODM option dictionary built by `get_odm_options_from_quality` and
then mutated by `ODMProcessor.process` (`odm_processor.py` lines 73-82).
Keys absent from a given quality tier's table are `none`. -/
structure OdmOptions where
  featureQuality : String
  meshSize : Nat
  minNumFeatures : Nat
  orthophotoResolution : Int
  fastOrthophoto : Bool
  optimizeDiskSpace : Bool
  pcQuality : Option String
  use3dmesh : Option Bool
  dsm : Option Bool
  dtm : Option Bool
  autoBoundary : Option Bool
deriving DecidableEq, Repr

/-- The `"low"` entry of `options_map` in `utils.get_odm_options_from_quality`. -/
def lowOptions : OdmOptions :=
  { featureQuality := "low", meshSize := 100000, minNumFeatures := 5000,
    orthophotoResolution := 10, fastOrthophoto := true, optimizeDiskSpace := true,
    pcQuality := none, use3dmesh := none, dsm := none, dtm := none, autoBoundary := none }

/-- The `"medium"` entry of `options_map` in `utils.get_odm_options_from_quality`. -/
def mediumOptions : OdmOptions :=
  { featureQuality := "medium", meshSize := 200000, minNumFeatures := 8000,
    orthophotoResolution := 5, fastOrthophoto := false, optimizeDiskSpace := false,
    pcQuality := none, use3dmesh := none, dsm := none, dtm := none, autoBoundary := none }

/-- The `"high"` entry of `options_map` in `utils.get_odm_options_from_quality`. -/
def highOptions : OdmOptions :=
  { featureQuality := "high", meshSize := 400000, minNumFeatures := 10000,
    orthophotoResolution := 2, fastOrthophoto := false, optimizeDiskSpace := false,
    pcQuality := some "high", use3dmesh := none, dsm := none, dtm := none, autoBoundary := none }

/-- The `"ultra"` entry of `options_map` in `utils.get_odm_options_from_quality`. -/
def ultraOptions : OdmOptions :=
  { featureQuality := "ultra", meshSize := 600000, minNumFeatures := 15000,
    orthophotoResolution := 1, fastOrthophoto := false, optimizeDiskSpace := false,
    pcQuality := some "ultra", use3dmesh := some true, dsm := none, dtm := none,
    autoBoundary := none }

/-- `utils.get_odm_options_from_quality` (`utils.py` lines 206-245):
`options_map.get(quality, options_map["medium"])`. -/
def get_odm_options_from_quality (quality : String) : OdmOptions :=
  if quality = "low" then lowOptions
  else if quality = "medium" then mediumOptions
  else if quality = "high" then highOptions
  else if quality = "ultra" then ultraOptions
  else mediumOptions

/-- The per-field options a caller may pass to `ODMProcessor.process` in the
`options` dict, as read by `options.get(...)` calls (`odm_processor.py`
lines 73-81).  A `none` field models an absent dict key. -/
structure CallerOptions where
  quality : Option String
  dsm : Option Bool
  dtm : Option Bool
  orthophotoResolution : Option Int
  minNumFeatures : Option Nat
  autoBoundary : Option Bool
deriving DecidableEq, Repr

/-- The caller options dict with no keys set. -/
def emptyCallerOptions : CallerOptions :=
  { quality := none, dsm := none, dtm := none, orthophotoResolution := none,
    minNumFeatures := none, autoBoundary := none }

/-- The ODM options actually submitted by `ODMProcessor.process`
(`odm_processor.py` lines 73-82): the quality lookup table followed by the
unconditional `odm_options.update({...})` of the five keys `dsm`, `dtm`,
`orthophoto-resolution`, `min-num-features`, `auto-boundary`, each taken
from the caller's dict with a fixed fallback default. -/
def processOdmOptions (options : CallerOptions) : OdmOptions :=
  let quality := options.quality.getD "medium"
  let odmOptions := get_odm_options_from_quality quality
  { odmOptions with
    dsm := some (options.dsm.getD true),
    dtm := some (options.dtm.getD true),
    orthophotoResolution := options.orthophotoResolution.getD 5,
    minNumFeatures := options.minNumFeatures.getD 8000,
    autoBoundary := some (options.autoBoundary.getD true) }

/-- Modelled from the spec (§4.2 step 1), for comparison with
`processOdmOptions`: "a parameter set derived from `quality` (a fixed
lookup table ...) overridden by any explicit per-field options supplied by
the caller" — a field the caller did not supply retains the lookup-table
value. -/
def specMergedOptions (options : CallerOptions) : OdmOptions :=
  let quality := options.quality.getD "medium"
  let odmOptions := get_odm_options_from_quality quality
  { odmOptions with
    dsm := match options.dsm with | some b => some b | none => odmOptions.dsm,
    dtm := match options.dtm with | some b => some b | none => odmOptions.dtm,
    orthophotoResolution :=
      (options.orthophotoResolution.getD odmOptions.orthophotoResolution),
    minNumFeatures := options.minNumFeatures.getD odmOptions.minNumFeatures,
    autoBoundary := match options.autoBoundary with
      | some b => some b | none => odmOptions.autoBoundary }

/-- Python's `l[-n:]`: the last `n` elements of a list (all of it when it is
shorter than `n`). -/
def lastN (n : Nat) (l : List α) : List α := l.drop (l.length - n)

/-- The string value of a `ProcessingStatus` member (`models.py`: the enum
derives `str`, so each member serializes as its value). -/
def statusString : ProcessingStatus → String
  | ProcessingStatus.pending => "pending"
  | ProcessingStatus.uploading => "uploading"
  | ProcessingStatus.processing => "processing"
  | ProcessingStatus.completed => "completed"
  | ProcessingStatus.failed => "failed"
  | ProcessingStatus.cancelled => "cancelled"

/-- The progress event dict built in `_update_progress` and
`_update_project_status` and handed to `broadcast_progress`. -/
structure ProgressEvent where
  taskId : String
  progress : Nat
  status : String
  error : Option String
  consoleOutput : List String
deriving DecidableEq, Repr

/-- `ODMProcessor._update_progress` (`odm_processor.py` lines 230-250) with
the database row made explicit: persists `progress = min(progress, 99)` and
(when non-empty) the console output, and builds the `processing` event whose
`progress` field is the raw argument and whose console lines are the last 5.
Returns the updated row (unchanged, with no write, when the row is absent)
and the broadcast event, which is built and published in either case. -/
def update_progress (taskId : String) (progress : Nat) (consoleOutput : List String)
    (now : Nat) (store : Option ProjectRecord) : Option ProjectRecord × ProgressEvent :=
  (store.map fun project =>
    { project with
      progress := min progress 99,
      updatedAt := now,
      consoleOutput := if consoleOutput = [] then project.consoleOutput else consoleOutput },
   { taskId := taskId, progress := progress, status := "processing", error := none,
     consoleOutput := lastN 5 consoleOutput })

/-- `ODMProcessor._update_project_status` (`odm_processor.py` lines
252-283), database row explicit: sets the status, sets `error_message` only
when the supplied text is truthy (non-`None`, non-empty), and sets
`completed_at` and `progress = 100` only for `COMPLETED`.  Also builds the
terminal broadcast event, whose `progress` is 100 for `COMPLETED` and the
row's (updated) progress otherwise. -/
def update_project_status (taskId : String) (status : ProcessingStatus)
    (errorMessage : Option String) (now : Nat) (project : ProjectRecord) :
    ProjectRecord × ProgressEvent :=
  let p1 := { project with status := status, updatedAt := now }
  let p2 := match errorMessage with
    | some s => if s = "" then p1 else { p1 with errorMessage := some s }
    | none => p1
  let p3 := if status = ProcessingStatus.completed then
      { p2 with completedAt := some now, progress := 100 }
    else p2
  (p3, { taskId := taskId, progress := if status = ProcessingStatus.completed then 100 else p3.progress,
         status := statusString status, error := errorMessage, consoleOutput := [] })

/-- The contents of the unpacked result bundle, as tested by the four
`.exists()` checks in `_download_results` (`odm_processor.py` lines
192-202). -/
structure BundleContents where
  orthophoto : Bool
  dsm : Bool
  pointcloud : Bool
  texturedModel : Bool
deriving DecidableEq, Repr

/-- `ODMProcessor._download_results` (`odm_processor.py` lines 178-228),
success path, with the downloaded/unpacked bundle abstracted to which of the
four conventionally-named files exist: sets each artifact path exactly when
the file exists, then persists `status = COMPLETED`, `progress = 100`,
`completed_at = now` and `processing_time = completed_at - created_at`. -/
def download_results (projectId : String) (bundle : BundleContents) (now : Nat)
    (project : ProjectRecord) : ProjectRecord :=
  let resultsDir := "results/" ++ projectId
  let p1 := { project with
    status := ProcessingStatus.completed,
    progress := 100,
    completedAt := some now }
  let p2 := { p1 with
    orthophotoPath := if bundle.orthophoto
      then some (resultsDir ++ "/odm_orthophoto/odm_orthophoto.tif") else p1.orthophotoPath,
    demPath := if bundle.dsm
      then some (resultsDir ++ "/odm_dem/dsm.tif") else p1.demPath,
    pointcloudPath := if bundle.pointcloud
      then some (resultsDir ++ "/odm_georeferencing/odm_georeferenced_model.laz")
      else p1.pointcloudPath,
    texturedModelPath := if bundle.texturedModel
      then some (resultsDir ++ "/odm_texturing/odm_textured_model_geo.obj")
      else p1.texturedModelPath }
  { p2 with processingTime := some ((now : Int) - (project.createdAt : Int)) }

/-- What one poll iteration of `_monitor_task` observes: the remote task
info (`task.info()`: status string, progress percentage, log output, last
error), plus the environment a terminal `completed` poll would go on to
see — the result-bundle contents — and the wall-clock time of the poll. -/
structure TaskInfo where
  status : String
  progress : Nat
  output : List String
  lastError : Option String
  bundle : BundleContents
  now : Nat
deriving DecidableEq, Repr

/-- The loop-local variables of `_monitor_task` (`odm_processor.py` lines
119-120): `last_progress` and `console_output`. -/
structure MonState where
  lastProgress : Nat
  consoleOutput : List String
deriving DecidableEq, Repr

/-- `last_progress = 0`, `console_output = []` at loop entry. -/
def initMonState : MonState := { lastProgress := 0, consoleOutput := [] }

/-- The effects of one poll iteration: the new loop state, the new database
row, the events handed to `broadcast_progress`, the progress values written
to the row at each database commit of the iteration, and whether the loop
`break`s. -/
structure StepOut where
  st : MonState
  record : ProjectRecord
  events : List ProgressEvent
  progressWrites : List Nat
  done : Bool
deriving DecidableEq, Repr

/-- The `console_output` update of `_monitor_task` (`odm_processor.py`
lines 135-138): when the poll carried output, extend by its last 10 lines
and keep only the last 100 entries. -/
def consoleStep (consoleOutput : List String) (output : List String) : List String :=
  if output = [] then consoleOutput
  else lastN 100 (consoleOutput ++ lastN 10 output)

/-- One iteration of the `while True` loop body of `_monitor_task`
(`odm_processor.py` lines 126-162): on progress change persist and publish
via `_update_progress`; extend the bounded console output; then dispatch on
the remote status (`completed` → `_download_results` and `break`;
`failed`/`canceled` → `_update_project_status` and `break`; anything else →
next iteration). -/
def monStep (projectId : String) (info : TaskInfo) (st : MonState) (rec : ProjectRecord) :
    StepOut :=
  let changed := info.progress ≠ st.lastProgress
  let upd := update_progress projectId info.progress st.consoleOutput info.now (some rec)
  let st1 := if changed then { st with lastProgress := info.progress } else st
  let rec1 := if changed then upd.1.getD rec else rec
  let evs1 := if changed then [upd.2] else []
  let w1 := if changed then [rec1.progress] else []
  let st2 := { st1 with consoleOutput := consoleStep st1.consoleOutput info.output }
  if info.status = "completed" then
    let rec2 := download_results projectId info.bundle info.now rec1
    { st := st2, record := rec2, events := evs1, progressWrites := w1 ++ [rec2.progress],
      done := true }
  else if info.status = "failed" then
    let errorMsg := info.lastError.getD "Task failed"
    let out := update_project_status projectId ProcessingStatus.failed (some errorMsg)
      info.now rec1
    { st := st2, record := out.1, events := evs1 ++ [out.2],
      progressWrites := w1 ++ [out.1.progress], done := true }
  else if info.status = "canceled" then
    let out := update_project_status projectId ProcessingStatus.cancelled
      (some "Task cancelled by user") info.now rec1
    { st := st2, record := out.1, events := evs1 ++ [out.2],
      progressWrites := w1 ++ [out.1.progress], done := true }
  else
    { st := st2, record := rec1, events := evs1, progressWrites := w1, done := false }

/-- The `while True` loop of `_monitor_task` over a finite sequence of poll
observations: runs `monStep` on each observation in turn, stopping after the
first iteration that `break`s.  Returns the per-iteration effects in
order. -/
def monRun (projectId : String) : List TaskInfo → MonState → ProjectRecord → List StepOut
  | [], _, _ => []
  | info :: rest, st, project =>
    let out := monStep projectId info st project
    if out.done then [out]
    else out :: monRun projectId rest out.st out.record

/-- The sequence of progress values persisted during a run, in commit
order. -/
def progressTrace (run : List StepOut) : List Nat :=
  run.flatMap StepOut.progressWrites

/-- The environment `ODMProcessor.process` inspects before submitting a job
(`odm_processor.py` lines 47-71): whether the NodeODM connection succeeded
in `__init__` (`self.node` non-`None`), whether the per-task uploads
directory exists, and how many files it contains. -/
structure ProcessEnv where
  nodeConnected : Bool
  uploadsDirExists : Bool
  numImageFiles : Nat
deriving DecidableEq, Repr

/-- The observable outcome of the setup phase of `ODMProcessor.process`:
the persisted row, the broadcast events, whether `self.node.create_task`
was reached and with which options, and whether `_monitor_task` was
entered. -/
structure ProcessOut where
  record : ProjectRecord
  events : List ProgressEvent
  submitted : Bool
  odmOptions : Option OdmOptions
  monitored : Bool
deriving DecidableEq, Repr

/-- The setup phase of `ODMProcessor.process` (`odm_processor.py` lines
34-94): mark the row `processing` with `progress = 0`; then short-circuit
to `failed` (via `_update_project_status`) when the node is unreachable,
the uploads directory is missing, or fewer than 3 image files are present;
otherwise build the ODM options and submit the task, after which
`_monitor_task` takes over (modelled separately by `monRun`). -/
def process (taskId : String) (env : ProcessEnv) (options : CallerOptions)
    (now : Nat) (project : ProjectRecord) : ProcessOut :=
  let p0 := { project with
    status := ProcessingStatus.processing, progress := 0, updatedAt := now }
  if ¬ env.nodeConnected then
    let out := update_project_status taskId ProcessingStatus.failed
      (some "NodeODM connection failed") now p0
    { record := out.1, events := [out.2], submitted := false, odmOptions := none,
      monitored := false }
  else if ¬ env.uploadsDirExists then
    let out := update_project_status taskId ProcessingStatus.failed
      (some "Image files not found") now p0
    { record := out.1, events := [out.2], submitted := false, odmOptions := none,
      monitored := false }
  else if env.numImageFiles < 3 then
    let out := update_project_status taskId ProcessingStatus.failed
      (some "Insufficient images for processing (minimum 3)") now p0
    { record := out.1, events := [out.2], submitted := false, odmOptions := none,
      monitored := false }
  else
    { record := p0, events := [], submitted := true,
      odmOptions := some (processOdmOptions options), monitored := true }

/-- One WebSocket subscriber in `active_websockets` (`app.py` line 79);
`alive` models whether `websocket.send_json` succeeds (a disconnected
socket raises). -/
structure Subscriber where
  sid : Nat
  alive : Bool
deriving DecidableEq, Repr

/-- The process-wide `active_websockets : Dict[str, List[WebSocket]]`. -/
abbrev Registry : Type := List (String × List Subscriber)

/-- Python `task_id in active_websockets`. -/
def hasTask : Registry → String → Bool
  | [], _ => false
  | e :: rest, taskId => if e.1 = taskId then true else hasTask rest taskId

/-- Python `active_websockets[task_id]` (keys are unique; first match). -/
def getSubs : Registry → String → List Subscriber
  | [], _ => []
  | e :: rest, taskId => if e.1 = taskId then e.2 else getSubs rest taskId

/-- Python `active_websockets[task_id] = subs` on an existing key. -/
def setSubs : Registry → String → List Subscriber → Registry
  | [], _, _ => []
  | e :: rest, taskId, subs =>
    if e.1 = taskId then (e.1, subs) :: setSubs rest taskId subs
    else e :: setSubs rest taskId subs

/-- `broadcast_progress` (`app.py` lines 379-389): when `taskId` has no
dict entry, do nothing; otherwise send the event to each registered
subscriber in order, collect those whose send raised, and remove them from
the entry afterwards.  Subscribers registered by the websocket endpoint are
pairwise distinct, so removing each failed one amounts to keeping exactly
the alive ones, in order.  Returns the new registry and the list of
(subscriber, event) deliveries. -/
def broadcast_progress (reg : Registry) (taskId : String) (progressData : ProgressEvent) :
    Registry × List (Nat × ProgressEvent) :=
  if hasTask reg taskId then
    let remaining := (getSubs reg taskId).filter (fun s => s.alive)
    let delivered := remaining.map (fun s => (s.sid, progressData))
    (setSubs reg taskId remaining, delivered)
  else (reg, [])

/-- The application state touched by the `delete_project` endpoint
(`app.py` lines 340-359): the task's database row and its two on-disk
directories. -/
structure AppState where
  record : Option ProjectRecord
  uploadsDirExists : Bool
  resultsDirExists : Bool
deriving DecidableEq, Repr

/-- `delete_project` (`app.py` lines 340-359): 404 when the row is absent;
otherwise remove the upload and result directories and delete the row.  The
endpoint touches nothing else — in particular it performs no cancellation
of a running background monitor and does not touch `active_websockets`. -/
def delete_project (s : AppState) : Except String AppState :=
  match s.record with
  | none => Except.error "Project not found"
  | some _ =>
    Except.ok { record := none, uploadsDirExists := false, resultsDirExists := false }

/-- A concrete pending-then-processing project row used to evaluate the
model on concrete inputs. -/
def sampleRecord : ProjectRecord :=
  { status := ProcessingStatus.processing, progress := 0, quality := "medium",
    createdAt := 10, updatedAt := 10, completedAt := none, processingTime := none,
    orthophotoPath := none, demPath := none, pointcloudPath := none,
    texturedModelPath := none, errorMessage := none, consoleOutput := [] }

/-- A poll observation with a given progress percentage and time, remote
status still running and nothing else reported. -/
def infoAt (progress : Nat) (now : Nat) : TaskInfo :=
  { status := "running", progress := progress, output := [], lastError := none,
    bundle := { orthophoto := false, dsm := false, pointcloud := false,
                texturedModel := false },
    now := now }

/-- A concrete application state holding one project row and its
directories. -/
def sampleAppState : AppState :=
  { record := some sampleRecord, uploadsDirExists := true, resultsDirExists := true }

end ODM

namespace ODM

/-- C10: `get_odm_options_from_quality` is total and every input string
outside {low, medium, high, ultra} yields exactly the medium-tier lookup
table, so an unrecognized or misspelled quality silently processes at
medium quality. -/
theorem C10_unknown_quality_defaults_to_medium (q : String)
    (h : q ∉ ["low", "medium", "high", "ultra"]) :
    get_odm_options_from_quality q = mediumOptions := by
  simp only [List.mem_cons, List.not_mem_nil, or_false, not_or] at h
  obtain ⟨h1, h2, h3, h4⟩ := h
  simp [get_odm_options_from_quality, h1, h2, h3, h4]

/-- Witness for C10 at the misspelled quality `"hgih"`. -/
theorem C10_unknown_quality_defaults_to_medium_witness :
    "hgih" ∉ ["low", "medium", "high", "ultra"] ∧
    get_odm_options_from_quality "hgih" = mediumOptions :=
  ⟨by decide, C10_unknown_quality_defaults_to_medium "hgih" (by decide)⟩

/-- C7 counterexample: with `quality = "low"` and no caller-supplied
options, the submitted parameter set does not retain the low-tier table
values — `orthophoto-resolution` is 5 (the unconditional update default)
where the low table says 10 — so it differs from the spec's described
merge. -/
theorem C7_counterexample :
    processOdmOptions { emptyCallerOptions with quality := some "low" } ≠
        specMergedOptions { emptyCallerOptions with quality := some "low" } ∧
      (processOdmOptions { emptyCallerOptions with quality := some "low" }).orthophotoResolution = 5 ∧
      (get_odm_options_from_quality "low").orthophotoResolution = 10 := by
  refine ⟨?_, by decide, by decide⟩
  decide

/-- C7 (amended): the submitted parameter set equals the quality lookup
table on the fields `feature-quality`, `mesh-size`, `fast-orthophoto`,
`optimize-disk-space`, `pc-quality` and `use-3dmesh`, while the five fields
`dsm`, `dtm`, `orthophoto-resolution`, `min-num-features` and
`auto-boundary` are always set from the caller's option when supplied and
from the fixed defaults (true, true, 5.0, 8000, true) otherwise — the
latter overriding the quality table even when the caller supplied
nothing. -/
theorem C7_amended_merge_characterization (options : CallerOptions) :
    (processOdmOptions options).featureQuality =
        (get_odm_options_from_quality (options.quality.getD "medium")).featureQuality ∧
      (processOdmOptions options).meshSize =
        (get_odm_options_from_quality (options.quality.getD "medium")).meshSize ∧
      (processOdmOptions options).fastOrthophoto =
        (get_odm_options_from_quality (options.quality.getD "medium")).fastOrthophoto ∧
      (processOdmOptions options).optimizeDiskSpace =
        (get_odm_options_from_quality (options.quality.getD "medium")).optimizeDiskSpace ∧
      (processOdmOptions options).pcQuality =
        (get_odm_options_from_quality (options.quality.getD "medium")).pcQuality ∧
      (processOdmOptions options).use3dmesh =
        (get_odm_options_from_quality (options.quality.getD "medium")).use3dmesh ∧
      (processOdmOptions options).dsm = some (options.dsm.getD true) ∧
      (processOdmOptions options).dtm = some (options.dtm.getD true) ∧
      (processOdmOptions options).orthophotoResolution =
        options.orthophotoResolution.getD 5 ∧
      (processOdmOptions options).minNumFeatures = options.minNumFeatures.getD 8000 ∧
      (processOdmOptions options).autoBoundary = some (options.autoBoundary.getD true) := by
  simp [processOdmOptions]

/-- C3: on remote `completed`, `_download_results` persists a row with
status `completed`, progress 100, `completed_at` set to the completion
time, `processing_time = completed_at - created_at`, and each artifact
path set exactly when the corresponding conventionally-named file exists in
the unpacked bundle; missing files leave the field unset and are not an
error. -/
theorem C3_completed_download_results (projectId : String) (bundle : BundleContents)
    (now : Nat) (p : ProjectRecord)
    (ho : p.orthophotoPath = none) (hd : p.demPath = none)
    (hpc : p.pointcloudPath = none) (ht : p.texturedModelPath = none) :
    (download_results projectId bundle now p).status = ProcessingStatus.completed ∧
      (download_results projectId bundle now p).progress = 100 ∧
      (download_results projectId bundle now p).completedAt = some now ∧
      (download_results projectId bundle now p).processingTime =
        some ((now : Int) - (p.createdAt : Int)) ∧
      (download_results projectId bundle now p).orthophotoPath.isSome = bundle.orthophoto ∧
      (download_results projectId bundle now p).demPath.isSome = bundle.dsm ∧
      (download_results projectId bundle now p).pointcloudPath.isSome = bundle.pointcloud ∧
      (download_results projectId bundle now p).texturedModelPath.isSome =
        bundle.texturedModel := by
  obtain ⟨o, d, pc, t⟩ := bundle
  cases o <;> cases d <;> cases pc <;> cases t <;>
    simp [download_results, ho, hd, hpc, ht]

/-- Witness for C3: the spec scenario's bundle containing only an
orthophoto, completing at time 50 a task created at time 10. -/
theorem C3_completed_download_results_witness :
    (download_results "t1"
        { orthophoto := true, dsm := false, pointcloud := false, texturedModel := false }
        50 sampleRecord).status = ProcessingStatus.completed ∧
      (download_results "t1"
        { orthophoto := true, dsm := false, pointcloud := false, texturedModel := false }
        50 sampleRecord).progress = 100 ∧
      (download_results "t1"
        { orthophoto := true, dsm := false, pointcloud := false, texturedModel := false }
        50 sampleRecord).completedAt = some 50 ∧
      (download_results "t1"
        { orthophoto := true, dsm := false, pointcloud := false, texturedModel := false }
        50 sampleRecord).processingTime = some ((50 : Int) - ((10 : Nat) : Int)) ∧
      (download_results "t1"
        { orthophoto := true, dsm := false, pointcloud := false, texturedModel := false }
        50 sampleRecord).orthophotoPath.isSome = true ∧
      (download_results "t1"
        { orthophoto := true, dsm := false, pointcloud := false, texturedModel := false }
        50 sampleRecord).demPath.isSome = false ∧
      (download_results "t1"
        { orthophoto := true, dsm := false, pointcloud := false, texturedModel := false }
        50 sampleRecord).pointcloudPath.isSome = false ∧
      (download_results "t1"
        { orthophoto := true, dsm := false, pointcloud := false, texturedModel := false }
        50 sampleRecord).texturedModelPath.isSome = false := by
  have h := C3_completed_download_results "t1"
    { orthophoto := true, dsm := false, pointcloud := false, texturedModel := false }
    50 sampleRecord rfl rfl rfl rfl
  simpa using h

/-- C6: every setup failure of `ODMProcessor.process` — NodeODM
unreachable, uploads directory missing, or fewer than 3 image files —
persists `failed` with the corresponding descriptive message and returns
without submitting a job and without entering the monitoring loop. -/
theorem C6_setup_failures_short_circuit (taskId : String) (env : ProcessEnv)
    (options : CallerOptions) (now : Nat) (p : ProjectRecord) :
    (env.nodeConnected = false →
      (process taskId env options now p).record.status = ProcessingStatus.failed ∧
      (process taskId env options now p).record.errorMessage =
        some "NodeODM connection failed" ∧
      (process taskId env options now p).submitted = false ∧
      (process taskId env options now p).monitored = false) ∧
    (env.nodeConnected = true → env.uploadsDirExists = false →
      (process taskId env options now p).record.status = ProcessingStatus.failed ∧
      (process taskId env options now p).record.errorMessage =
        some "Image files not found" ∧
      (process taskId env options now p).submitted = false ∧
      (process taskId env options now p).monitored = false) ∧
    (env.nodeConnected = true → env.uploadsDirExists = true → env.numImageFiles < 3 →
      (process taskId env options now p).record.status = ProcessingStatus.failed ∧
      (process taskId env options now p).record.errorMessage =
        some "Insufficient images for processing (minimum 3)" ∧
      (process taskId env options now p).submitted = false ∧
      (process taskId env options now p).monitored = false) := by
  obtain ⟨n, u, k⟩ := env
  refine ⟨?_, ?_, ?_⟩
  · intro hn
    subst hn
    simp [process, update_project_status]
  · intro hn hu
    subst hn; subst hu
    simp [process, update_project_status]
  · intro hn hu hk
    subst hn; subst hu
    simp only at hk
    simp [process, update_project_status, hk]

/-- Witness for C6: a run with two image files present and everything else
in order is rejected for insufficient images without any submission. -/
theorem C6_setup_failures_short_circuit_witness :
    (process "t1" { nodeConnected := true, uploadsDirExists := true, numImageFiles := 2 }
        emptyCallerOptions 20 sampleRecord).record.status = ProcessingStatus.failed ∧
      (process "t1" { nodeConnected := true, uploadsDirExists := true, numImageFiles := 2 }
        emptyCallerOptions 20 sampleRecord).record.errorMessage =
        some "Insufficient images for processing (minimum 3)" ∧
      (process "t1" { nodeConnected := true, uploadsDirExists := true, numImageFiles := 2 }
        emptyCallerOptions 20 sampleRecord).submitted = false ∧
      (process "t1" { nodeConnected := true, uploadsDirExists := true, numImageFiles := 2 }
        emptyCallerOptions 20 sampleRecord).monitored = false :=
  (C6_setup_failures_short_circuit "t1"
    { nodeConnected := true, uploadsDirExists := true, numImageFiles := 2 }
    emptyCallerOptions 20 sampleRecord).2.2 rfl rfl (by decide)

/-- Projection: `_update_project_status` writes `progress = 100` exactly for
the `COMPLETED` status and leaves the field untouched otherwise. -/
lemma update_project_status_progress (taskId : String) (s : ProcessingStatus)
    (em : Option String) (now : Nat) (p : ProjectRecord) :
    (update_project_status taskId s em now p).1.progress =
      if s = ProcessingStatus.completed then 100 else p.progress := by
  cases em with
  | none => simp only [update_project_status]; split <;> rfl
  | some e =>
    simp only [update_project_status]
    by_cases he : e = "" <;> simp only [he, if_true, if_false, reduceIte] <;> split <;> rfl

/-- Projection: `_update_project_status` always writes the given status. -/
lemma update_project_status_status (taskId : String) (s : ProcessingStatus)
    (em : Option String) (now : Nat) (p : ProjectRecord) :
    (update_project_status taskId s em now p).1.status = s := by
  cases em with
  | none => simp only [update_project_status]; split <;> rfl
  | some e =>
    simp only [update_project_status]
    by_cases he : e = "" <;> simp only [he, if_true, if_false, reduceIte] <;> split <;> rfl

/-- Projection: `_update_project_status` writes `error_message` only for a
truthy (non-empty) supplied text. -/
lemma update_project_status_errorMessage (taskId : String) (s : ProcessingStatus)
    (em : Option String) (now : Nat) (p : ProjectRecord) :
    (update_project_status taskId s em now p).1.errorMessage =
      (match em with
      | some e => if e = "" then p.errorMessage else some e
      | none => p.errorMessage) := by
  cases em with
  | none => simp only [update_project_status]; split <;> rfl
  | some e =>
    simp only [update_project_status]
    by_cases he : e = "" <;> simp only [he, if_true, if_false, reduceIte] <;> split <;> rfl

/-- Projection: `_update_project_status` never touches the console
output. -/
lemma update_project_status_consoleOutput (taskId : String) (s : ProcessingStatus)
    (em : Option String) (now : Nat) (p : ProjectRecord) :
    (update_project_status taskId s em now p).1.consoleOutput = p.consoleOutput := by
  cases em with
  | none => simp only [update_project_status]; split <;> rfl
  | some e =>
    simp only [update_project_status]
    by_cases he : e = "" <;> simp only [he, if_true, if_false, reduceIte] <;> split <;> rfl

/-- C1 counterexample: on a poll observing progress 100 while still
`processing`, `_update_progress` persists the clamped value 99 but the
published event carries the raw value 100, so the published event does not
carry the clamped value the claim asserts. -/
theorem C1_counterexample :
    (update_progress "t1" 100 [] 20 (some sampleRecord)).1 =
        some { sampleRecord with progress := 99, updatedAt := 20 } ∧
      (update_progress "t1" 100 [] 20 (some sampleRecord)).2.progress = 100 ∧
      (update_progress "t1" 100 [] 20 (some sampleRecord)).2.progress ≠ min 100 99 := by
  decide

/-- C1 (amended): on a progress-change poll the value persisted to the row
is the clamp `min(progress, 99) ≤ 99`, while the published `processing`
event carries the raw observed progress (equal to the persisted value only
when the observation is ≤ 99); the persisted progress becomes exactly 100
only through the terminal `completed` transition (`_download_results`, or
`_update_project_status` with `COMPLETED`). -/
theorem C1_amended_clamp_persist_raw_publish (taskId : String) (progress : Nat)
    (co : List String) (now : Nat) (p : ProjectRecord) (s : ProcessingStatus)
    (em : Option String) (hp : p.progress ≤ 99) :
    (update_progress taskId progress co now (some p)).1.map ProjectRecord.progress =
        some (min progress 99) ∧
      min progress 99 ≤ 99 ∧
      (update_progress taskId progress co now (some p)).2.progress = progress ∧
      ((update_project_status taskId s em now p).1.progress = 100 ↔
        s = ProcessingStatus.completed) ∧
      (∀ pid b, (download_results pid b now p).progress = 100) := by
  refine ⟨by simp [update_progress], Nat.min_le_right _ _, by simp [update_progress],
    ?_, fun pid b => by simp [download_results]⟩
  rw [update_project_status_progress]
  constructor
  · intro h
    by_contra hs
    rw [if_neg hs] at h
    omega
  · intro hs
    rw [if_pos hs]

/-- Witness for C1 (amended) at progress 100 on the sample row. -/
theorem C1_amended_clamp_persist_raw_publish_witness :
    (update_progress "t1" 100 ["line"] 20 (some sampleRecord)).1.map
        ProjectRecord.progress = some (min 100 99) ∧
      min 100 99 ≤ 99 ∧
      (update_progress "t1" 100 ["line"] 20 (some sampleRecord)).2.progress = 100 ∧
      ((update_project_status "t1" ProcessingStatus.failed (some "boom") 20
          sampleRecord).1.progress = 100 ↔
        ProcessingStatus.failed = ProcessingStatus.completed) ∧
      (∀ pid b, (download_results pid b 20 sampleRecord).progress = 100) :=
  C1_amended_clamp_persist_raw_publish "t1" 100 ["line"] 20 sampleRecord
    ProcessingStatus.failed (some "boom") (by decide)

/-- The database row after the progress-change stage of one poll iteration
(`rec1` inside `monStep`): unchanged when the observed progress equals the
last one, otherwise the row written by `_update_progress`. -/
def stageRec (i : TaskInfo) (st : MonState) (p : ProjectRecord) : ProjectRecord :=
  if i.progress = st.lastProgress then p
  else
    { p with
      progress := min i.progress 99,
      updatedAt := i.now,
      consoleOutput := if st.consoleOutput = [] then p.consoleOutput else st.consoleOutput }

/-- On a `failed` poll, the iteration's persisted row is exactly the
`_update_project_status` write applied after the progress-change stage, and
the loop breaks. -/
lemma monStep_failed (pid : String) (i : TaskInfo) (st : MonState) (p : ProjectRecord)
    (hs : i.status = "failed") :
    (monStep pid i st p).record =
        (update_project_status pid ProcessingStatus.failed
          (some (i.lastError.getD "Task failed")) i.now (stageRec i st p)).1 ∧
      (monStep pid i st p).done = true := by
  by_cases hc : i.progress = st.lastProgress <;>
    simp [monStep, hs, hc, update_progress, stageRec]

/-- The progress of the row after the progress-change stage is bounded by
99 whenever the incoming row's progress is. -/
lemma stageRec_progress_le (i : TaskInfo) (st : MonState) (p : ProjectRecord)
    (hp : p.progress ≤ 99) : (stageRec i st p).progress ≤ 99 := by
  unfold stageRec
  split
  · exact hp
  · simp [Nat.min_le_right]

/-- C5: on a poll reporting remote status `failed` with non-empty error
text, the iteration persists `status = failed` with that text verbatim and
exits the monitoring loop; the failed transition does not modify the
progress field, so the persisted progress stays at its last value, which is
below 100. -/
theorem C5_remote_failed_verbatim (projectId : String) (info : TaskInfo)
    (st : MonState) (p : ProjectRecord) (e : String) (rest : List TaskInfo)
    (hs : info.status = "failed") (he : info.lastError = some e) (hne : e ≠ "")
    (hp : p.progress ≤ 99) :
    (monStep projectId info st p).record.status = ProcessingStatus.failed ∧
      (monStep projectId info st p).record.errorMessage = some e ∧
      (monStep projectId info st p).done = true ∧
      (monStep projectId info st p).record.progress < 100 ∧
      (update_project_status projectId ProcessingStatus.failed (some e) info.now
          p).1.progress = p.progress ∧
      monRun projectId (info :: rest) st p = [monStep projectId info st p] := by
  obtain ⟨hrec, hdone⟩ := monStep_failed projectId info st p hs
  refine ⟨?_, ?_, hdone, ?_, ?_, ?_⟩
  · rw [hrec, update_project_status_status]
  · rw [hrec, update_project_status_errorMessage]
    simp [he, hne]
  · rw [hrec, update_project_status_progress]
    have := stageRec_progress_le info st p hp
    simp only [if_neg (by decide : ¬ (ProcessingStatus.failed = ProcessingStatus.completed))]
    omega
  · rw [update_project_status_progress]
    simp
  · simp [monRun, hdone]

/-- A poll observation for the spec scenario: remote `failed` with error
text `"out of memory"`. -/
def failedInfo : TaskInfo :=
  { status := "failed", progress := 0, output := [], lastError := some "out of memory",
    bundle := { orthophoto := false, dsm := false, pointcloud := false,
                texturedModel := false },
    now := 30 }

/-- Witness for C5: the spec scenario — remote `failed` with error text
`"out of memory"` while the last persisted progress was 0. -/
theorem C5_remote_failed_verbatim_witness :
    (monStep "t1" failedInfo initMonState sampleRecord).record.status =
        ProcessingStatus.failed ∧
      (monStep "t1" failedInfo initMonState sampleRecord).record.errorMessage =
        some "out of memory" ∧
      (monStep "t1" failedInfo initMonState sampleRecord).done = true ∧
      (monStep "t1" failedInfo initMonState sampleRecord).record.progress < 100 ∧
      (update_project_status "t1" ProcessingStatus.failed (some "out of memory") 30
          sampleRecord).1.progress = sampleRecord.progress ∧
      monRun "t1" [failedInfo] initMonState sampleRecord =
        [monStep "t1" failedInfo initMonState sampleRecord] :=
  C5_remote_failed_verbatim "t1" failedInfo initMonState sampleRecord "out of memory" []
    rfl rfl (by decide) (by decide)

/-- Updating the subscriber list of `taskId` changes the subscriber list
seen for `taskId` (when an entry for it exists). -/
lemma getSubs_setSubs_self (reg : Registry) (taskId : String) (subs' : List Subscriber)
    (h : hasTask reg taskId = true) :
    getSubs (setSubs reg taskId subs') taskId = subs' := by
  induction reg with
  | nil => simp [hasTask] at h
  | cons hd tl ih =>
    by_cases hh : hd.1 = taskId
    · simp [setSubs, getSubs, hh]
    · simp only [hasTask, if_neg hh] at h
      simp [setSubs, getSubs, hh, ih h]

/-- Updating the subscriber list of `taskId` leaves every other task's
subscriber list unchanged. -/
lemma getSubs_setSubs_other (reg : Registry) (taskId : String) (subs' : List Subscriber)
    (t : String) (h : t ≠ taskId) :
    getSubs (setSubs reg taskId subs') t = getSubs reg t := by
  induction reg with
  | nil => simp [setSubs]
  | cons hd tl ih =>
    have hts : ¬ taskId = t := fun hx => h hx.symm
    by_cases hh : hd.1 = taskId
    · have hht : ¬ hd.1 = t := by rw [hh]; exact hts
      simp [setSubs, getSubs, hh, hht, hts, ih]
    · by_cases ht : hd.1 = t
      · simp [setSubs, getSubs, hh, ht, h, ih]
      · simp [setSubs, getSubs, hh, ht, ih]

/-- A task with no registry entry has no subscribers. -/
lemma getSubs_eq_nil_of_not_hasTask (reg : Registry) (taskId : String)
    (h : hasTask reg taskId = false) : getSubs reg taskId = [] := by
  induction reg with
  | nil => rfl
  | cons hd tl ih =>
    by_cases hh : hd.1 = taskId
    · simp [hasTask, hh] at h
    · simp only [hasTask, if_neg hh] at h
      simp [getSubs, hh, ih h]

/-- C8: publishing to a task with zero registered subscribers is a no-op
that never errors; a subscriber whose delivery fails is removed from the
registry, while every alive subscriber of the same task receives the
event. -/
theorem C8_publish_best_effort (reg : Registry) (taskId : String) (ev : ProgressEvent) :
    (getSubs reg taskId = [] →
        (broadcast_progress reg taskId ev).2 = [] ∧
        ∀ t, getSubs (broadcast_progress reg taskId ev).1 t = getSubs reg t) ∧
      (broadcast_progress reg taskId ev).2 =
        ((getSubs reg taskId).filter (fun s => s.alive)).map (fun s => (s.sid, ev)) ∧
      getSubs (broadcast_progress reg taskId ev).1 taskId =
        (getSubs reg taskId).filter (fun s => s.alive) ∧
      (∀ s ∈ getSubs reg taskId, s.alive = true →
        (s.sid, ev) ∈ (broadcast_progress reg taskId ev).2) ∧
      (∀ s ∈ getSubs reg taskId, s.alive = false →
        s ∉ getSubs (broadcast_progress reg taskId ev).1 taskId) := by
  cases hft : hasTask reg taskId with
  | false =>
    have hsubs := getSubs_eq_nil_of_not_hasTask reg taskId hft
    have hb : broadcast_progress reg taskId ev = (reg, []) := by
      simp [broadcast_progress, hft]
    refine ⟨fun _ => ⟨by simp [hb], fun t => by simp [hb]⟩, ?_, ?_, ?_, ?_⟩
    · simp [hb, hsubs]
    · simp [hb, hsubs]
    · simp [hsubs]
    · simp [hsubs]
  | true =>
    have hb : broadcast_progress reg taskId ev =
        (setSubs reg taskId ((getSubs reg taskId).filter (fun s => s.alive)),
         ((getSubs reg taskId).filter (fun s => s.alive)).map (fun s => (s.sid, ev))) := by
      simp [broadcast_progress, hft]
    have hself : getSubs (broadcast_progress reg taskId ev).1 taskId =
        (getSubs reg taskId).filter (fun s => s.alive) := by
      rw [hb]
      exact getSubs_setSubs_self reg taskId _ hft
    refine ⟨?_, by simp [hb], hself, ?_, ?_⟩
    · intro hz
      refine ⟨by simp [hb, hz], fun t => ?_⟩
      by_cases ht : t = taskId
      · subst ht
        rw [hself, hz]
        simp
      · rw [hb]
        exact getSubs_setSubs_other reg taskId _ t ht
    · intro s hmem halive
      rw [hb]
      simp only [List.mem_map, List.mem_filter]
      exact ⟨s, ⟨hmem, halive⟩, rfl⟩
    · intro s hmem hdead hmem'
      rw [hself] at hmem'
      have halive := (List.mem_filter.mp hmem').2
      rw [hdead] at halive
      simp at halive

/-- A concrete registry: task `"t1"` with three subscribers, the second
disconnected. -/
def sampleRegistry : Registry :=
  [("t1", [{ sid := 1, alive := true }, { sid := 2, alive := false },
           { sid := 3, alive := true }])]

/-- A concrete processing event. -/
def sampleEvent : ProgressEvent :=
  { taskId := "t1", progress := 42, status := "processing", error := none,
    consoleOutput := [] }

/-- Witness for C8 on the concrete registry: subscribers 1 and 3 receive
the event and the dead subscriber 2 is dropped. -/
theorem C8_publish_best_effort_witness :
    (broadcast_progress sampleRegistry "t1" sampleEvent).2 =
        [(1, sampleEvent), (3, sampleEvent)] ∧
      getSubs (broadcast_progress sampleRegistry "t1" sampleEvent).1 "t1" =
        [{ sid := 1, alive := true }, { sid := 3, alive := true }] := by
  have h := C8_publish_best_effort sampleRegistry "t1" sampleEvent
  exact ⟨h.2.1.trans (by decide), h.2.2.1.trans (by decide)⟩

/-- C9 counterexample: `delete_project` only removes the row and the two
directories; the monitoring routine is not stopped, and its next
progress-change poll, finding no row, persists nothing but still builds its
`processing` event and `broadcast_progress` still delivers it to a live
subscriber — a published event originating from the task's orchestrator
after delete has returned. -/
theorem C9_counterexample :
    delete_project sampleAppState =
        Except.ok { record := none, uploadsDirExists := false, resultsDirExists := false } ∧
      (update_progress "t1" 50 [] 30 none).1 = none ∧
      (broadcast_progress [("t1", [{ sid := 7, alive := true }])] "t1"
          (update_progress "t1" 50 [] 30 none).2).2 =
        [(7, { taskId := "t1", progress := 50, status := "processing", error := none,
               consoleOutput := [] })] := by
  exact ⟨rfl, rfl, by decide⟩

/-- C9 (amended): the delete-project operation removes the backing record
(and on-disk artifacts) but performs no cancellation of a still-running
orchestrator; after delete returns, a subsequent progress poll of that
orchestrator persists nothing (the row is gone) yet still publishes a
`processing` event for the task. -/
theorem C9_amended_delete_does_not_stop_orchestrator (s s' : AppState)
    (h : delete_project s = Except.ok s') (taskId : String) (progress : Nat)
    (co : List String) (now : Nat) :
    s'.record = none ∧
      (update_progress taskId progress co now s'.record).1 = none ∧
      (update_progress taskId progress co now s'.record).2.taskId = taskId ∧
      (update_progress taskId progress co now s'.record).2.status = "processing" := by
  cases hr : s.record with
  | none => simp [delete_project, hr] at h
  | some p =>
    simp only [delete_project, hr, Except.ok.injEq] at h
    subst h
    exact ⟨rfl, rfl, rfl, rfl⟩

/-- Witness for C9 (amended) on the sample application state. -/
theorem C9_amended_delete_does_not_stop_orchestrator_witness :
    ({ record := none, uploadsDirExists := false, resultsDirExists := false } :
        AppState).record = none ∧
      (update_progress "t1" 50 [] 30
        ({ record := none, uploadsDirExists := false, resultsDirExists := false } :
          AppState).record).1 = none ∧
      (update_progress "t1" 50 [] 30
        ({ record := none, uploadsDirExists := false, resultsDirExists := false } :
          AppState).record).2.taskId = "t1" ∧
      (update_progress "t1" 50 [] 30
        ({ record := none, uploadsDirExists := false, resultsDirExists := false } :
          AppState).record).2.status = "processing" :=
  C9_amended_delete_does_not_stop_orchestrator sampleAppState
    { record := none, uploadsDirExists := false, resultsDirExists := false }
    rfl "t1" 50 [] 30

/-- `l[-n:]` keeps at most `n` entries. -/
lemma lastN_length_le (n : Nat) (l : List α) : (lastN n l).length ≤ n := by
  simp only [lastN, List.length_drop]
  omega

/-- `l[-n:]` is a suffix of `l`. -/
lemma lastN_suffix (n : Nat) (l : List α) : lastN n l <:+ l :=
  ⟨l.take (l.length - n), List.take_append_drop _ _⟩

/-- One console update keeps the 100-entry bound. -/
lemma consoleStep_length (co o : List String) (h : co.length ≤ 100) :
    (consoleStep co o).length ≤ 100 := by
  unfold consoleStep
  split
  · exact h
  · exact lastN_length_le 100 _

/-- The lines one poll inserts into the console: the last 10 lines of its
output, nothing when it carried no output. -/
def pollChunk (i : TaskInfo) : List String :=
  if i.output = [] then [] else lastN 10 i.output

/-- One console update yields a suffix of the previous console extended by
the poll's inserted lines: relative insertion order is preserved and only
the oldest entries are evicted. -/
lemma consoleStep_suffix (co o : List String) :
    consoleStep co o <:+ co ++ (if o = [] then [] else lastN 10 o) := by
  unfold consoleStep
  split
  · simp
  · exact lastN_suffix 100 _

/-- The lines inserted into the console over a sequence of polls, in
order. -/
def insertedLines : List TaskInfo → List String
  | [] => []
  | i :: rest => pollChunk i ++ insertedLines rest

/-- The loop state after one poll carries the console produced by
`consoleStep`, in every status branch. -/
lemma monStep_st_console (pid : String) (i : TaskInfo) (st : MonState)
    (p : ProjectRecord) :
    (monStep pid i st p).st.consoleOutput = consoleStep st.consoleOutput i.output := by
  by_cases hc : i.progress = st.lastProgress <;>
    simp [monStep, hc] <;> split_ifs <;> rfl

/-- `_download_results` does not touch the console output. -/
lemma download_results_consoleOutput (pid : String) (b : BundleContents) (now : Nat)
    (p : ProjectRecord) : (download_results pid b now p).consoleOutput = p.consoleOutput := by
  simp [download_results]

/-- The row persisted by one poll carries either the incoming row's console
or the loop's console (the latter written by `_update_progress`). -/
lemma monStep_record_console (pid : String) (i : TaskInfo) (st : MonState)
    (p : ProjectRecord) :
    (monStep pid i st p).record.consoleOutput = p.consoleOutput ∨
      (monStep pid i st p).record.consoleOutput = st.consoleOutput := by
  by_cases hc : i.progress = st.lastProgress <;>
  by_cases hco : st.consoleOutput = [] <;>
    simp [monStep, hc, hco, update_progress, update_project_status_consoleOutput,
      download_results_consoleOutput] <;>
    split_ifs <;>
    simp [update_project_status_consoleOutput, download_results_consoleOutput]

/-- C4: throughout a monitoring run started with a bounded console, every
iteration's maintained console and persisted console hold at most 100
entries, and the maintained console is always a suffix of the initial
console extended by the lines inserted so far — insertion order is
preserved and the oldest entries are evicted first. -/
theorem C4_console_bounded_ordered (pid : String) (obs : List TaskInfo) (st : MonState)
    (p : ProjectRecord) (hst : st.consoleOutput.length ≤ 100)
    (hp : p.consoleOutput.length ≤ 100) :
    ∀ out ∈ monRun pid obs st p,
      out.st.consoleOutput.length ≤ 100 ∧
      out.record.consoleOutput.length ≤ 100 ∧
      ∃ k, out.st.consoleOutput <:+ st.consoleOutput ++ insertedLines (obs.take k) := by
  induction obs generalizing st p with
  | nil =>
    intro out hmem
    simp [monRun] at hmem
  | cons i rest ih =>
    have hstep : (monStep pid i st p).st.consoleOutput =
        consoleStep st.consoleOutput i.output := monStep_st_console pid i st p
    have hlen1 : (monStep pid i st p).st.consoleOutput.length ≤ 100 := by
      rw [hstep]
      exact consoleStep_length _ _ hst
    have hlenrec : (monStep pid i st p).record.consoleOutput.length ≤ 100 := by
      rcases monStep_record_console pid i st p with h | h <;> rw [h]
      · exact hp
      · exact hst
    have hsuf1 : ∃ k, (monStep pid i st p).st.consoleOutput <:+
        st.consoleOutput ++ insertedLines ((i :: rest).take k) := by
      refine ⟨1, ?_⟩
      rw [hstep]
      have h := consoleStep_suffix st.consoleOutput i.output
      simpa [insertedLines, pollChunk] using h
    intro out hmem
    by_cases hdone : (monStep pid i st p).done = true
    · rw [monRun] at hmem
      simp only [hdone, if_true, List.mem_singleton] at hmem
      subst hmem
      exact ⟨hlen1, hlenrec, hsuf1⟩
    · rw [monRun] at hmem
      simp only [hdone, if_false, List.mem_cons, Bool.false_eq_true] at hmem
      rcases hmem with hmem | hmem
      · subst hmem
        exact ⟨hlen1, hlenrec, hsuf1⟩
      · obtain ⟨h1, h2, k, hsuf⟩ := ih (monStep pid i st p).st
          (monStep pid i st p).record hlen1 hlenrec out hmem
        refine ⟨h1, h2, k + 1, ?_⟩
        have hmid : (monStep pid i st p).st.consoleOutput ++ insertedLines (rest.take k) <:+
            (st.consoleOutput ++ pollChunk i) ++ insertedLines (rest.take k) := by
          rw [hstep]
          obtain ⟨t, ht⟩ := consoleStep_suffix st.consoleOutput i.output
          exact ⟨t, by rw [← List.append_assoc, ht]; rfl⟩
        have htrans : out.st.consoleOutput <:+
            (st.consoleOutput ++ pollChunk i) ++ insertedLines (rest.take k) :=
          hsuf.trans hmid
        simpa [insertedLines, List.append_assoc] using htrans

/-- The polls of the concrete C4 run: two polls carrying output, one
without. -/
def i0C4 : TaskInfo := { infoAt 10 5 with output := ["a", "b"] }

/-- Second poll of the concrete C4 run. -/
def i1C4 : TaskInfo := { infoAt 20 10 with output := ["c"] }

/-- The concrete C4 observation sequence. -/
def obsC4 : List TaskInfo := [i0C4, i1C4, infoAt 30 15]

/-- Witness for C4 at the first iteration of the concrete run. -/
theorem C4_console_bounded_ordered_witness :
    (monStep "t1" i0C4 initMonState sampleRecord).st.consoleOutput.length ≤ 100 ∧
      (monStep "t1" i0C4 initMonState sampleRecord).record.consoleOutput.length ≤ 100 ∧
      ∃ k, (monStep "t1" i0C4 initMonState sampleRecord).st.consoleOutput <:+
        initMonState.consoleOutput ++ insertedLines (obsC4.take k) :=
  C4_console_bounded_ordered "t1" obsC4 initMonState sampleRecord (by decide) (by decide)
    (monStep "t1" i0C4 initMonState sampleRecord) (by decide)

/-- The progress field after the progress-change stage of a poll. -/
lemma stageRec_progress (i : TaskInfo) (st : MonState) (p : ProjectRecord) :
    (stageRec i st p).progress =
      if i.progress = st.lastProgress then p.progress else min i.progress 99 := by
  unfold stageRec
  split <;> rfl

/-- `_download_results` always persists progress 100. -/
lemma download_results_progress (pid : String) (b : BundleContents) (now : Nat)
    (p : ProjectRecord) : (download_results pid b now p).progress = 100 := by
  simp [download_results]

/-- The progress values persisted by one poll iteration, by case on the
remote status. -/
lemma monStep_progressWrites (pid : String) (i : TaskInfo) (st : MonState)
    (p : ProjectRecord) :
    (monStep pid i st p).progressWrites =
      (if i.progress = st.lastProgress then [] else [min i.progress 99]) ++
      (if i.status = "completed" then [100]
       else if i.status = "failed" then [(stageRec i st p).progress]
       else if i.status = "canceled" then [(stageRec i st p).progress]
       else []) := by
  by_cases hc : i.progress = st.lastProgress <;>
  by_cases h1 : i.status = "completed" <;>
  by_cases h2 : i.status = "failed" <;>
  by_cases h3 : i.status = "canceled" <;>
    simp_all [monStep, update_progress, stageRec, download_results_progress,
      update_project_status_progress]

/-- The persisted row's progress after one poll iteration. -/
lemma monStep_record_progress (pid : String) (i : TaskInfo) (st : MonState)
    (p : ProjectRecord) :
    (monStep pid i st p).record.progress =
      if i.status = "completed" then 100 else (stageRec i st p).progress := by
  by_cases hc : i.progress = st.lastProgress <;>
  by_cases h1 : i.status = "completed" <;>
  by_cases h2 : i.status = "failed" <;>
  by_cases h3 : i.status = "canceled" <;>
    simp_all [monStep, update_progress, stageRec, download_results_progress,
      update_project_status_progress]

/-- The loop's `last_progress` after one poll iteration. -/
lemma monStep_st_lastProgress (pid : String) (i : TaskInfo) (st : MonState)
    (p : ProjectRecord) :
    (monStep pid i st p).st.lastProgress =
      if i.progress = st.lastProgress then st.lastProgress else i.progress := by
  by_cases hc : i.progress = st.lastProgress <;>
    simp [monStep, hc] <;> split_ifs <;> rfl

/-- The loop breaks exactly on the three terminal remote statuses. -/
lemma monStep_done_iff (pid : String) (i : TaskInfo) (st : MonState)
    (p : ProjectRecord) :
    (monStep pid i st p).done = true ↔
      (i.status = "completed" ∨ i.status = "failed" ∨ i.status = "canceled") := by
  by_cases h1 : i.status = "completed" <;>
  by_cases h2 : i.status = "failed" <;>
  by_cases h3 : i.status = "canceled" <;>
    simp_all [monStep]

/-- Unfolding: the persisted-progress trace of a run step. -/
lemma progressTrace_cons (o : StepOut) (l : List StepOut) :
    progressTrace (o :: l) = o.progressWrites ++ progressTrace l := rfl

/-- Unfolding: the persisted-progress trace of the empty run. -/
lemma progressTrace_nil : progressTrace [] = [] := rfl

/-- Along any suffix of a run whose observed progress values continue
non-decreasingly from the loop's `last_progress`, the persisted progress
values continue non-decreasingly from the clamp of `last_progress`,
provided the row currently holds that clamp. -/
lemma progressTrace_chain_aux (pid : String) (obs : List TaskInfo) :
    ∀ (st : MonState) (p : ProjectRecord),
      p.progress = min st.lastProgress 99 →
      List.Chain' (· ≤ ·) (st.lastProgress :: obs.map TaskInfo.progress) →
      List.Chain' (· ≤ ·)
        (min st.lastProgress 99 :: progressTrace (monRun pid obs st p)) := by
  induction obs with
  | nil =>
    intro st p hp hch
    simp [monRun, progressTrace]
  | cons i rest ih =>
    intro st p hp hch
    rw [List.map_cons] at hch
    have hle : st.lastProgress ≤ i.progress := (List.chain'_cons.mp hch).1
    have hch' : List.Chain' (· ≤ ·) (i.progress :: rest.map TaskInfo.progress) :=
      (List.chain'_cons.mp hch).2
    have hmin : min st.lastProgress 99 ≤ min i.progress 99 :=
      min_le_min hle (le_refl 99)
    have hmin100 : min st.lastProgress 99 ≤ 100 :=
      (Nat.min_le_right _ _).trans (by omega)
    by_cases h1 : i.status = "completed"
    · have hdone : (monStep pid i st p).done = true :=
        (monStep_done_iff pid i st p).mpr (Or.inl h1)
      rw [monRun]
      simp only [hdone, if_true]
      rw [progressTrace_cons, progressTrace_nil, List.append_nil,
        monStep_progressWrites, if_pos h1]
      by_cases hc : i.progress = st.lastProgress
      · rw [if_pos hc, List.nil_append]
        exact List.chain'_cons.mpr ⟨hmin100, List.chain'_singleton _⟩
      · rw [if_neg hc, List.cons_append, List.nil_append]
        refine List.chain'_cons.mpr ⟨hmin, List.chain'_cons.mpr ⟨?_, List.chain'_singleton _⟩⟩
        exact (Nat.min_le_right _ _).trans (by omega)
    · by_cases h2 : i.status = "failed"
      · have hdone : (monStep pid i st p).done = true :=
          (monStep_done_iff pid i st p).mpr (Or.inr (Or.inl h2))
        rw [monRun]
        simp only [hdone, if_true]
        rw [progressTrace_cons, progressTrace_nil, List.append_nil,
          monStep_progressWrites, if_neg h1, if_pos h2, stageRec_progress]
        by_cases hc : i.progress = st.lastProgress
        · rw [if_pos hc, if_pos hc, List.nil_append, hp]
          exact List.chain'_cons.mpr ⟨le_refl _, List.chain'_singleton _⟩
        · rw [if_neg hc, if_neg hc, List.cons_append, List.nil_append]
          exact List.chain'_cons.mpr
            ⟨hmin, List.chain'_cons.mpr ⟨le_refl _, List.chain'_singleton _⟩⟩
      · by_cases h3 : i.status = "canceled"
        · have hdone : (monStep pid i st p).done = true :=
            (monStep_done_iff pid i st p).mpr (Or.inr (Or.inr h3))
          rw [monRun]
          simp only [hdone, if_true]
          rw [progressTrace_cons, progressTrace_nil, List.append_nil,
            monStep_progressWrites, if_neg h1, if_neg h2, if_pos h3, stageRec_progress]
          by_cases hc : i.progress = st.lastProgress
          · rw [if_pos hc, if_pos hc, List.nil_append, hp]
            exact List.chain'_cons.mpr ⟨le_refl _, List.chain'_singleton _⟩
          · rw [if_neg hc, if_neg hc, List.cons_append, List.nil_append]
            exact List.chain'_cons.mpr
              ⟨hmin, List.chain'_cons.mpr ⟨le_refl _, List.chain'_singleton _⟩⟩
        · have hdone : (monStep pid i st p).done = false := by
            rcases Bool.eq_false_or_eq_true (monStep pid i st p).done with h | h
            swap
            · exact h
            rcases (monStep_done_iff pid i st p).mp h with hx | hx | hx
            · exact absurd hx h1
            · exact absurd hx h2
            · exact absurd hx h3
          rw [monRun]
          simp only [hdone, Bool.false_eq_true, if_false]
          rw [progressTrace_cons, monStep_progressWrites, if_neg h1, if_neg h2,
            if_neg h3, List.append_nil]
          have hinv : (monStep pid i st p).record.progress =
              min (monStep pid i st p).st.lastProgress 99 := by
            rw [monStep_record_progress, if_neg h1, stageRec_progress,
              monStep_st_lastProgress]
            by_cases hc : i.progress = st.lastProgress
            · rw [if_pos hc, if_pos hc, hp]
            · rw [if_neg hc, if_neg hc]
          by_cases hc : i.progress = st.lastProgress
          · have heq : (monStep pid i st p).st.lastProgress = st.lastProgress := by
              rw [monStep_st_lastProgress, if_pos hc]
            have hch2 : List.Chain' (· ≤ ·)
                ((monStep pid i st p).st.lastProgress :: rest.map TaskInfo.progress) := by
              rw [heq, ← hc]
              exact hch'
            have hih := ih (monStep pid i st p).st (monStep pid i st p).record hinv hch2
            rw [heq] at hih
            rw [if_pos hc, List.nil_append]
            exact hih
          · have heq : (monStep pid i st p).st.lastProgress = i.progress := by
              rw [monStep_st_lastProgress, if_neg hc]
            have hch2 : List.Chain' (· ≤ ·)
                ((monStep pid i st p).st.lastProgress :: rest.map TaskInfo.progress) := by
              rw [heq]
              exact hch'
            have hih := ih (monStep pid i st p).st (monStep pid i st p).record hinv hch2
            rw [heq] at hih
            rw [if_neg hc, List.cons_append, List.nil_append]
            exact List.chain'_cons.mpr ⟨hmin, hih⟩

/-- C2 counterexample: when the remote engine reports progress 50 and then
40 while still running, the loop persists 50 and then persists the smaller
value 40 — the persisted sequence is not non-decreasing (and no terminal
jump to 100 is involved). -/
theorem C2_counterexample :
    progressTrace (monRun "t1" [infoAt 50 5, infoAt 40 10] initMonState sampleRecord) =
        [50, 40] ∧
      ¬ List.Chain' (fun a b : Nat => a ≤ b) [50, 40] :=
  ⟨by decide, fun h => absurd (List.chain'_cons.mp h).1 (by omega)⟩

/-- C2 (amended): provided the sequence of remote progress observations is
itself non-decreasing, the sequence of progress values persisted during a
single run (started from the real loop entry state and a row at progress 0)
is non-decreasing, the final jump to 100 at completion included.  When the
remote engine reports a lower value than the previously observed one, that
lower value is persisted (clamped to 99), so monotonicity of the persisted
sequence holds only under monotone observations. -/
theorem C2_amended_persisted_monotone (pid : String) (obs : List TaskInfo)
    (p : ProjectRecord) (hp : p.progress = 0)
    (hmono : List.Chain' (· ≤ ·) (obs.map TaskInfo.progress)) :
    List.Chain' (· ≤ ·) (progressTrace (monRun pid obs initMonState p)) := by
  have h := progressTrace_chain_aux pid obs initMonState p
    (by simpa [initMonState] using hp)
    (List.chain'_cons'.mpr ⟨fun y _ => Nat.zero_le y, hmono⟩)
  exact h.tail

/-- The spec scenario's terminal observation: remote `completed` at
progress 100 with a bundle containing only an orthophoto. -/
def completedInfo : TaskInfo :=
  { status := "completed", progress := 100, output := [], lastError := none,
    bundle := { orthophoto := true, dsm := false, pointcloud := false,
                texturedModel := false },
    now := 50 }

/-- Witness for C2 (amended): the spec scenario 10 → 55 → 100/completed. -/
theorem C2_amended_persisted_monotone_witness :
    List.Chain' (· ≤ ·)
      (progressTrace (monRun "t1" [infoAt 10 5, infoAt 55 10, completedInfo]
        initMonState sampleRecord)) :=
  C2_amended_persisted_monotone "t1" [infoAt 10 5, infoAt 55 10, completedInfo]
    sampleRecord rfl (by
      have hm : List.map TaskInfo.progress [infoAt 10 5, infoAt 55 10, completedInfo] =
          [10, 55, 100] := rfl
      rw [hm]
      exact List.chain'_cons.mpr ⟨by omega,
        List.chain'_cons.mpr ⟨by omega, List.chain'_singleton _⟩⟩)

end ODM
